import Mathlib

/-!
Shallow embedding of the tool-augmented completion loop of
`src/index.ts` (LLM chat application template, "Transfer Ready
Assistant").  JavaScript strings are modelled as Lean `String`,
JavaScript numbers as exact rationals extended with `NaN`/`±Infinity`
(`JsNum`; floating-point rounding is idealized away, no claim depends
on it), the network as an oracle `HttpRequest → FetchResult`, and the
completion engine as an oracle `List ChatMessage → String`.
-/

namespace LlmChat

/-- A chat message, as in `types.ts` / the request body: a role string
(`"system" | "user" | "assistant"`) and a content string. -/
structure ChatMessage where
  role : String
  content : String
deriving DecidableEq

/-- An exact rational number in canonical lowest terms (every value is
built through `mkQ`, so structural equality is value equality).  A
bespoke type rather than Mathlib's `Rat` so that all operations reduce
inside the kernel (`Nat.gcd` in core is well-founded recursion, which
does not reduce definitionally). -/
structure QNum where
  num : Int
  den : Nat
deriving DecidableEq

/-- Euclid's algorithm with explicit fuel, so that it is structurally
recursive and kernel-reducible. -/
def gcdFuel : Nat → Nat → Nat → Nat
  | 0, _, n => n
  | fuel + 1, m, n => if m = 0 then n else gcdFuel fuel (n % m) m

/-- `natGcd m n`: fuel `m + 1` always suffices because the first
argument of `gcdFuel` strictly decreases (`n % m < m`). -/
def natGcd (m n : Nat) : Nat := gcdFuel (m + 1) m n

/-- Canonical rational `n / d` (for `d ≠ 0`), reduced to lowest terms. -/
def mkQ (n : Int) (d : Nat) : QNum :=
  if d = 0 then ⟨0, 1⟩
  else
    let g := natGcd n.natAbs d
    ⟨n / (g : Int), d / g⟩

/-- A JavaScript number as produced by `Number(string)`: `NaN`, a signed
infinity, or an exact rational. -/
inductive JsNum where
  | nan
  | posInf
  | negInf
  | rat (q : QNum)
deriving DecidableEq

/-- A parsed parameter value: `string | number` as in the TypeScript
type `Record string (string | number)`. -/
inductive Value where
  | str (s : String)
  | num (n : JsNum)
deriving DecidableEq

/-! ### `Number(string)` — ECMAScript string-to-number coercion -/

/-- ECMAScript `StrWhiteSpaceChar`: whitespace and line terminators that
`Number(string)` trims. -/
def isJsWhitespace (c : Char) : Bool :=
  c == ' ' || c == '\t' || c == '\n' || c == '\r' ||
  c.toNat == 11 || c.toNat == 12 || c.toNat == 0xA0 || c.toNat == 0xFEFF ||
  c.toNat == 0x2028 || c.toNat == 0x2029

def isHexDigitChar (c : Char) : Bool :=
  c.isDigit || ('a' ≤ c && c ≤ 'f') || ('A' ≤ c && c ≤ 'F')

def hexDigitVal (c : Char) : Nat :=
  if c.isDigit then c.toNat - '0'.toNat
  else if 'a' ≤ c && c ≤ 'f' then c.toNat - 'a'.toNat + 10
  else c.toNat - 'A'.toNat + 10

def digitsToNat (base : Nat) (ds : List Char) : Nat :=
  ds.foldl (fun a c => base * a + hexDigitVal c) 0

/-- Parse the exponent tail of a decimal literal (`e`/`E`, optional
sign, one or more digits), which must consume the whole remainder.
`[]` means no exponent. -/
def parseExpTail (cs : List Char) : Option Int :=
  match cs with
  | [] => some 0
  | e :: rest =>
    if e == 'e' || e == 'E' then
      let (sign, ds) : Int × List Char :=
        match rest with
        | '+' :: t => (1, t)
        | '-' :: t => (-1, t)
        | t => (1, t)
      if ds ≠ [] && ds.all Char.isDigit then
        some (sign * (digitsToNat 10 ds : Int))
      else none
    else none

/-- Parse an unsigned ECMAScript `StrUnsignedDecimalLiteral` (without
`Infinity`): `D+ [. D*] [exp]` or `. D+ [exp]`, consuming the whole
input.  Returns numerator and denominator (a power of ten). -/
def parseDecimal (cs : List Char) : Option (Nat × Nat) :=
  let (ip, r1) := cs.span Char.isDigit
  let core : Option (Nat × Nat × List Char) :=
    if ip = [] then
      match r1 with
      | '.' :: r2 =>
        let (fp, r3) := r2.span Char.isDigit
        if fp = [] then none
        else some (digitsToNat 10 fp, 10 ^ fp.length, r3)
      | _ => none
    else
      match r1 with
      | '.' :: r2 =>
        let (fp, r3) := r2.span Char.isDigit
        some (digitsToNat 10 ip * 10 ^ fp.length + digitsToNat 10 fp, 10 ^ fp.length, r3)
      | _ => some (digitsToNat 10 ip, 1, r1)
  match core with
  | none => none
  | some (n, d, rest) =>
    match parseExpTail rest with
    | none => none
    | some e =>
      if 0 ≤ e then some (n * 10 ^ e.toNat, d)
      else some (n, d * 10 ^ (-e).toNat)

/-- ECMAScript `Number(string)`: trim whitespace; empty string is `0`;
`0x`/`0o`/`0b` radix literals; otherwise an optionally signed decimal
literal or `Infinity`; anything else is `NaN`. -/
def jsNumber (s : String) : JsNum :=
  let cs := (s.data.dropWhile isJsWhitespace).reverse.dropWhile isJsWhitespace |>.reverse
  let signedDec : List Char → JsNum := fun cs =>
    let (sign, cs2) : Int × List Char :=
      match cs with
      | '+' :: t => (1, t)
      | '-' :: t => (-1, t)
      | t => (1, t)
    if cs2 = "Infinity".data then
      if sign = 1 then .posInf else .negInf
    else
      match parseDecimal cs2 with
      | some (n, d) => .rat (mkQ (sign * (n : Int)) d)
      | none => .nan
  match cs with
  | [] => .rat (mkQ 0 1)
  | '0' :: p :: rest =>
    if p == 'x' || p == 'X' then
      if rest ≠ [] && rest.all isHexDigitChar then .rat (mkQ (digitsToNat 16 rest : Int) 1) else .nan
    else if p == 'o' || p == 'O' then
      if rest ≠ [] && rest.all (fun c => '0' ≤ c && c ≤ '7') then .rat (mkQ (digitsToNat 8 rest : Int) 1) else .nan
    else if p == 'b' || p == 'B' then
      if rest ≠ [] && rest.all (fun c => c == '0' || c == '1') then .rat (mkQ (digitsToNat 2 rest : Int) 1) else .nan
    else signedDec cs
  | _ => signedDec cs

/-- `isNaN(Number(value)) ? value : Number(value)` — the coercion
applied to every extracted parameter value in `parseToolCalls`. -/
def coerceValue (v : String) : Value :=
  match jsNumber v with
  | .nan => .str v
  | n => .num n

/-! ### Directive parser — `parseToolCalls`

The source uses the global regex
`/<TOOL_CALL>(\w+)\((.*?)\)<\/TOOL_CALL>/g` and, on each captured
parameter list, `/(\w+)="([^"]*)"/g`.  The scanners below reproduce the
exec-loop semantics of those patterns: leftmost match, resume after the
end of the previous match, `.` does not cross line terminators, and
`(.*?)` is lazy, so the parameter region ends at the first occurrence
of the literal `)</TOOL_CALL>`. -/

/-- JavaScript `\w`: `[A-Za-z0-9_]`. -/
def isWordChar (c : Char) : Bool := c.isAlphanum || c == '_'

/-- ECMAScript line terminators, which `.` does not match (no `s`
flag on the regex). -/
def isJsLineTerminator (c : Char) : Bool :=
  c == '\n' || c == '\r' || c.toNat == 0x2028 || c.toNat == 0x2029

/-- If `pat` is a leading run of `s`, return the remainder. -/
def dropLit : List Char → List Char → Option (List Char)
  | [], s => some s
  | _ :: _, [] => none
  | p :: ps, c :: cs => if c == p then dropLit ps cs else none

/-- The lazy `(.*?)\)<\/TOOL_CALL>` step: consume the shortest run of
non-line-terminator characters up to the literal `)</TOOL_CALL>`;
return the run and the remainder after the literal.  Fuel bounds the
scan (callers pass the remaining length, which always suffices). -/
def takeParamsRegion : Nat → List Char → List Char → Option (List Char × List Char)
  | 0, _, _ => none
  | fuel + 1, acc, s =>
    match dropLit ")</TOOL_CALL>".data s with
    | some rest => some (acc.reverse, rest)
    | none =>
      match s with
      | [] => none
      | c :: cs =>
        if isJsLineTerminator c then none
        else takeParamsRegion fuel (c :: acc) cs

/-- Try to match one `<TOOL_CALL>(\w+)\((.*?)\)<\/TOOL_CALL>` at the
head of `s`: the literal opener, a maximal nonempty `\w+` run, `(`,
then the lazy parameter region.  Returns `(toolName, paramsStr)` and
the remainder after the match. -/
def matchDirective (s : List Char) : Option ((String × String) × List Char) :=
  match dropLit "<TOOL_CALL>".data s with
  | none => none
  | some r1 =>
    let (name, r2) := r1.span isWordChar
    if name = [] then none
    else
      match r2 with
      | '(' :: r3 =>
        match takeParamsRegion (r3.length + 1) [] r3 with
        | some (ps, rest) => some ((⟨name⟩, ⟨ps⟩), rest)
        | none => none
      | _ => none

/-- The regex exec loop: attempt a match at every position from left to
right, resuming after the end of each successful match.  Fuel is the
input length (each step consumes at least one character). -/
def scanDirectives : Nat → List Char → List (String × String)
  | 0, _ => []
  | fuel + 1, s =>
    match s with
    | [] => []
    | _ :: tail =>
      match matchDirective s with
      | some (d, rest) => d :: scanDirectives fuel rest
      | none => scanDirectives fuel tail

/-- All `(toolName, rawParamsString)` pairs recognized in a reply, in
left-to-right order. -/
def parseToolCallsRaw (text : String) : List (String × String) :=
  scanDirectives text.length text.data

/-- Try to match one `(\w+)="([^"]*)"` at the head of `s`: a maximal
nonempty `\w+` run, the literal `="`, a maximal quote-free run, and the
closing quote. -/
def matchParam (s : List Char) : Option ((String × String) × List Char) :=
  let (key, r1) := s.span isWordChar
  if key = [] then none
  else
    match r1 with
    | '=' :: '"' :: r2 =>
      let (v, r3) := r2.span (fun c => c ≠ '"')
      match r3 with
      | '"' :: rest => some ((⟨key⟩, ⟨v⟩), rest)
      | _ => none
    | _ => none

/-- The parameter-regex exec loop over one captured parameter list. -/
def scanParams : Nat → List Char → List (String × String)
  | 0, _ => []
  | fuel + 1, s =>
    match s with
    | [] => []
    | _ :: tail =>
      match matchParam s with
      | some (kv, rest) => kv :: scanParams fuel rest
      | none => scanParams fuel tail

/-- A parsed tool-call directive.  Parameters are kept as an ordered
association list; JavaScript object semantics (`params[key] = v`
overwrites) are recovered by the last-wins lookup `jsGet`. -/
structure ToolCall where
  tool : String
  params : List (String × Value)
deriving DecidableEq

/-- Last-wins association-list lookup, mirroring sequential
`params[key] = value` assignments on a JavaScript object. -/
def jsGet (params : List (String × Value)) (key : String) : Option Value :=
  params.foldl (fun acc p => if p.1 = key then some p.2 else acc) none

/-- `parseToolCalls` from `src/index.ts`: extract every well-formed
`<TOOL_CALL>name(k="v" ...)</TOOL_CALL>` directive, coercing each
parameter value with `coerceValue`. -/
def parseToolCalls (text : String) : List ToolCall :=
  (parseToolCallsRaw text).map fun d =>
    ⟨d.1, (scanParams d.2.length d.2.data).map fun kv => (kv.1, coerceValue kv.2)⟩

/-! ### Prompt builder — `buildSystemPrompt` -/

/-- The `CONTEXT` constant of `src/index.ts`. -/
def CONTEXT : String :=
  "You are the Transfer Ready Assistant, helping community college students successfully transfer to universities (UCs, CSUs, and private institutions). You have expertise in transfer requirements, course articulation, GPA requirements, application timelines, and major-specific pathways. Provide clear, actionable advice to help students achieve their transfer goals."

/-- The `TOOLS_DEFINITION` constant of `src/index.ts` (verbatim,
including the rule that the fifth tool must never be called). -/
def TOOLS_DEFINITION : String :=
  "You have access to the following tools to help answer student questions:\n\n1. Transfer Requirements (check_transfer_requirements) - Created by Eli\n   - Use when student asks about transfer requirements between specific schools\n   - Parameters: from_school (string), to_school (string)\n   - Returns: Transfer agreement details, requirements, and ASSIST.org link\n   - Reference this tool as: \"Transfer Requirements Tool\"\n\n2. Internship Search (find_internships) - Created by Gabe\n   - Use when student asks about internships in their field\n   - Parameters: major (string), limit (number, optional)\n   - Returns: List of internship opportunities matching the major\n   - Reference this tool as: \"Internship Search Tool\"\n\n3. Mentorship Programs (find_mentorship_programs) - Created by Gabe\n   - Use when student asks about mentorship opportunities\n   - Parameters: none required\n   - Returns: List of community college friendly mentorship programs\n   - Reference this tool as: \"Mentorship Programs Tool\"\n\n4. Free Resources (find_free_resources) - Created by Gabe\n   - Use when student asks about free resources, programs, or financial aid\n   - Parameters: none required\n   - Returns: List of free educational resources and mentorship opportunities\n   - Reference this tool as: \"Free Resources Tool\"\n\n5. CS Articulations (find_cs_articulations) - Created by Angelo\n   - Use when student asks about Computer Science course articulations or equivalencies between community colleges and UC schools\n   - Parameters: cc (string, required), uc (string, required)\n   - Returns: CS course mapping and articulation details between specific CC and UC campus\n   - Reference this tool as: \"CS Articulations Tool\"\n   - However, NEVER call this tool. Do not mention that it is unavailable at this time, but NEVER actually call it.\n\nWhen using tools, format your request as: <TOOL_CALL>tool_name(param1=\"value1\", param2=\"value2\")</TOOL_CALL>\nYou can use multiple tools in one response. After tool results are provided, analyze and present the findings to the student using the tool reference names. Example: \"According to the Transfer Requirements Tool\"."

/-- The fixed part of the system prompt (the template literal that
opens `buildSystemPrompt`, with `CONTEXT` and `TOOLS_DEFINITION`
interpolated).  Note the trailing space after "transfers. " is in the
source. -/
def basePrompt : String :=
  "You are the BetterTransfer Assistant - a friendly and knowledgeable guide for community college to university transfers. \n\nYour role is to help students with:\n- Course requirements and articulation agreements\n- Transfer eligibility and timeline planning\n- GPA and prerequisite requirements\n- Major-specific transfer pathways\n- School selection and comparison\n- Application strategies and deadlines\n\nBe encouraging, specific, and provide actionable steps. Keep responses concise but comprehensive.\n\nContext: " ++ CONTEXT ++ "\n\n" ++ TOOLS_DEFINITION

/-- The optional user profile `{ cc?, schools?, major? }`.  An absent
field is `none`; JavaScript truthiness also treats an empty string (or
empty array, via `.length > 0`) as unset. -/
structure UserProfile where
  cc : Option String
  schools : Option (List String)
  major : Option String
deriving DecidableEq

/-- `buildSystemPrompt` from `src/index.ts`.  The `let prompt := ...`
chain mirrors the sequential `prompt += ...` statements; each `if`
mirrors the JavaScript truthiness test on the field. -/
def buildSystemPrompt (userProfile : Option UserProfile) : String :=
  let prompt := basePrompt
  match userProfile with
  | none => prompt
  | some up =>
    let prompt := prompt ++ "\n\nStudent Profile:"
    let prompt :=
      match up.cc with
      | some c => if c ≠ "" then prompt ++ "\n- Current Community College: " ++ c else prompt
      | none => prompt
    let prompt :=
      match up.major with
      | some m => if m ≠ "" then prompt ++ "\n- Target Major: " ++ m else prompt
      | none => prompt
    let prompt :=
      match up.schools with
      | some l =>
        if l.length > 0 then prompt ++ "\n- Target Universities: " ++ String.intercalate ", " l
        else prompt
      | none => prompt
    prompt ++ "\n\nUse this information to provide personalized transfer advice and call tools when relevant to get specific data."

/-! ### Tool dispatcher — `executeTool`

The network is an oracle from requests to results.  A `fetch` plus
`response.json()` that succeeds yields `FetchResult.success json`,
where `json` stands for the re-serialization `JSON.stringify(data)` of
the decoded payload; any network or decoding failure yields
`FetchResult.failure err`, where `err` stands for `String(error)` of
the thrown value.  Every request handed to the oracle is also recorded,
so theorems can speak about outbound calls. -/

def API_BASE_URL : String := "http://localhost:5000"

inductive FetchResult where
  | success (json : String)
  | failure (err : String)
deriving DecidableEq

structure HttpRequest where
  method : String
  url : String
  body : Option String
deriving DecidableEq

/-- The `TOOL_NAMES` record of `src/index.ts`. -/
def TOOL_NAMES : List (String × String) :=
  [("check_transfer_requirements", "Transfer Requirements Tool by Eli"),
   ("find_internships", "Internship Search Tool by Gabe"),
   ("find_mentorship_programs", "Mentorship Programs Tool by Gabe"),
   ("find_free_resources", "Free Resources Tool by Gabe"),
   ("find_cs_articulations", "CS Articulations Tool by Angelo")]

/-- `TOOL_NAMES[toolName] || toolName` (every display name in the
record is a nonempty string, so `||` falls back exactly on a missing
key). -/
def toolDisplayName (toolName : String) : String :=
  match TOOL_NAMES.find? (fun p => p.1 == toolName) with
  | some p => p.2
  | none => toolName

/-- UTF-8 bytes of one character (written out over `Nat` so the kernel
can evaluate it). -/
def utf8Bytes (c : Char) : List Nat :=
  let n := c.toNat
  if n < 0x80 then [n]
  else if n < 0x800 then [0xC0 + n / 0x40, 0x80 + n % 0x40]
  else if n < 0x10000 then [0xE0 + n / 0x1000, 0x80 + (n / 0x40) % 0x40, 0x80 + n % 0x40]
  else [0xF0 + n / 0x40000, 0x80 + (n / 0x1000) % 0x40, 0x80 + (n / 0x40) % 0x40, 0x80 + n % 0x40]

def hexUpperDigit (n : Nat) : Char :=
  if n < 10 then Char.ofNat ('0'.toNat + n) else Char.ofNat ('A'.toNat + n - 10)

def hexLowerDigit (n : Nat) : Char :=
  if n < 10 then Char.ofNat ('0'.toNat + n) else Char.ofNat ('a'.toNat + n - 10)

/-- Characters `encodeURIComponent` leaves unescaped:
`A–Z a–z 0–9 - _ . ! ~ * ' ( )`. -/
def isUriUnreserved (c : Char) : Bool :=
  c.isAlphanum || c == '-' || c == '_' || c == '.' || c == '!' || c == '~' ||
  c == '*' || c == '\'' || c == '(' || c == ')'

/-- `encodeURIComponent`: percent-encode every reserved character as
the uppercase-hex bytes of its UTF-8 encoding. -/
def encodeURIComponent (s : String) : String :=
  ⟨s.data.flatMap fun c =>
    if isUriUnreserved c then [c]
    else (utf8Bytes c).flatMap fun b => ['%', hexUpperDigit (b / 16), hexUpperDigit (b % 16)]⟩

/-- JSON string escaping as performed by `JSON.stringify`. -/
def jsonEscapeChar (c : Char) : List Char :=
  if c == '"' then ['\\', '"']
  else if c == '\\' then ['\\', '\\']
  else if c == '\n' then ['\\', 'n']
  else if c == '\r' then ['\\', 'r']
  else if c == '\t' then ['\\', 't']
  else if c.toNat == 8 then ['\\', 'b']
  else if c.toNat == 12 then ['\\', 'f']
  else if c.toNat < 0x20 then
    ['\\', 'u', '0', '0', hexLowerDigit (c.toNat / 16), hexLowerDigit (c.toNat % 16)]
  else [c]

def jsonEscape (s : String) : String := ⟨s.data.flatMap jsonEscapeChar⟩

/-- Smallest `k` (searched up to the fuel bound) with `d ∣ 10 ^ k`;
`d + 1` fuel suffices for every denominator reachable from decimal
parsing (a divisor of a power of ten). -/
def pow10Multiple : Nat → Nat → Nat → Option Nat
  | 0, _, _ => none
  | fuel + 1, d, k => if 10 ^ k % d = 0 then some k else pow10Multiple fuel d (k + 1)

def padZerosLeft (s : List Char) (k : Nat) : List Char :=
  List.replicate (k - s.length) '0' ++ s

def stripZerosRight (s : List Char) : List Char :=
  (s.reverse.dropWhile (fun c => c == '0')).reverse

/-- JavaScript `ToString` of a number (decimal rendering; the exponent
notation JavaScript uses for very large or small magnitudes is not
modelled — no claim depends on it). -/
def jsNumToString : JsNum → String
  | .nan => "NaN"
  | .posInf => "Infinity"
  | .negInf => "-Infinity"
  | .rat q =>
    let sign := if q.num < 0 then "-" else ""
    let a := q.num.natAbs
    match pow10Multiple (q.den + 1) q.den 0 with
    | none => sign ++ Nat.repr a ++ "/" ++ Nat.repr q.den
    | some k =>
      let scaled := a * (10 ^ k / q.den)
      let ip := scaled / 10 ^ k
      let fp := stripZerosRight (padZerosLeft (Nat.repr (scaled % 10 ^ k)).data k)
      if fp = [] then sign ++ Nat.repr ip
      else sign ++ Nat.repr ip ++ "." ++ (⟨fp⟩ : String)

/-- Template-literal interpolation `${v}` of a `string | number`
value. -/
def valueToJsString : Value → String
  | .str s => s
  | .num n => jsNumToString n

/-- Interpolation of a possibly-`undefined` value (JavaScript renders
`undefined` as the string "undefined"). -/
def optValueToJsString : Option Value → String
  | none => "undefined"
  | some v => valueToJsString v

/-- JavaScript truthiness of a `string | number` value. -/
def jsTruthy : Value → Bool
  | .str s => s ≠ ""
  | .num .nan => false
  | .num (.rat q) => q.num ≠ 0
  | .num _ => true

/-- `${params.limit || 5}` in the `find_internships` URL. -/
def jsOrFive (l : Option Value) : String :=
  match l with
  | some v => if jsTruthy v then valueToJsString v else "5"
  | none => "5"

/-- `JSON.stringify` of one value. -/
def jsonValue : Value → String
  | .str s => "\"" ++ jsonEscape s ++ "\""
  | .num (.rat q) => jsNumToString (.rat q)
  | .num _ => "null"

/-- `JSON.stringify` of an object literal: fields whose value is
`undefined` are omitted. -/
def jsonStringifyObj (fields : List (String × Option Value)) : String :=
  "\x7b" ++
    String.intercalate ","
      (fields.filterMap fun f => f.2.map fun v => "\"" ++ jsonEscape f.1 ++ "\":" ++ jsonValue v) ++
  "\x7d"

/-- One `fetch` → `response.json()` → `JSON.stringify(data)` round
trip inside the `try`: on success the result line is
`[displayName] json`; the `catch` turns any failure into
`[displayName] Error: err`.  The issued request is recorded either
way. -/
def fetchAndRender (displayName : String) (req : HttpRequest)
    (oracle : HttpRequest → FetchResult) : String × List HttpRequest :=
  (match oracle req with
   | .success json => "[" ++ displayName ++ "] " ++ json
   | .failure err => "[" ++ displayName ++ "] Error: " ++ err,
   [req])

/-- `executeTool` from `src/index.ts`: dispatch on the tool name;
unknown names fall through to
`JSON.stringify({ error: "Unknown tool: <name>" })` without issuing
any request.  Returns the result text and the list of outbound
requests. -/
def executeTool (toolName : String) (params : List (String × Value))
    (oracle : HttpRequest → FetchResult) : String × List HttpRequest :=
  let dn := toolDisplayName toolName
  if toolName == "check_transfer_requirements" then
    fetchAndRender dn
      ⟨"POST", API_BASE_URL ++ "/api/transfer/check",
        some (jsonStringifyObj
          [("from_school", jsGet params "from_school"),
           ("to_school", jsGet params "to_school")])⟩ oracle
  else if toolName == "find_internships" then
    fetchAndRender dn
      ⟨"GET", API_BASE_URL ++ "/api/stem-internships?major=" ++
        encodeURIComponent (optValueToJsString (jsGet params "major")) ++
        "&limit=" ++ jsOrFive (jsGet params "limit"), none⟩ oracle
  else if toolName == "find_mentorship_programs" then
    fetchAndRender dn
      ⟨"GET", API_BASE_URL ++ "/api/mentorships/community-college?limit=5", none⟩ oracle
  else if toolName == "find_free_resources" then
    fetchAndRender dn
      ⟨"GET", API_BASE_URL ++ "/api/mentorships/free?limit=5", none⟩ oracle
  else if toolName == "find_cs_articulations" then
    fetchAndRender dn
      ⟨"GET", API_BASE_URL ++ "/api/cs-articulations?cc=" ++
        encodeURIComponent (optValueToJsString (jsGet params "cc")) ++
        "&uc=" ++ encodeURIComponent (optValueToJsString (jsGet params "uc")), none⟩ oracle
  else
    ("\x7b\"error\":\"" ++ jsonEscape ("Unknown tool: " ++ toolName) ++ "\"\x7d", [])

/-! ### Completion loop controller — `handleChatRequest` -/

/-- The system-message guard at the top of `handleChatRequest`:
`if (!messages.some(m => m.role === "system")) messages.unshift(...)`. -/
def ensureSystem (systemPrompt : String) (messages : List ChatMessage) : List ChatMessage :=
  if messages.any (fun m => m.role == "system") then messages
  else ⟨"system", systemPrompt⟩ :: messages

/-- The `while (iteration < maxIterations)` loop of
`handleChatRequest`, with the remaining budget as the recursion
argument; the `0` case is the unconditional final completion call after
budget exhaustion (whose reply is returned without parsing).  Returns
`(finalAnswer, workingMessages, completionCallCount)`. -/
def chatLoop (ai : List ChatMessage → String) (oracle : HttpRequest → FetchResult) :
    Nat → List ChatMessage → String × List ChatMessage × Nat
  | 0, msgs => (ai msgs, msgs, 1)
  | fuel + 1, msgs =>
    let assistantMessage := ai msgs
    let toolCalls := parseToolCalls assistantMessage
    if toolCalls.length = 0 then
      (assistantMessage, msgs ++ [⟨"assistant", assistantMessage⟩], 1)
    else
      let withAssistant := msgs ++ [⟨"assistant", assistantMessage⟩]
      let toolResults :=
        toolCalls.foldl (fun acc tc => acc ++ (executeTool tc.tool tc.params oracle).1 ++ "\n")
          "Tool Execution Results:\n"
      let next := chatLoop ai oracle fuel (withAssistant ++ [⟨"user", toolResults⟩])
      (next.1, next.2.1, next.2.2 + 1)

/-- `maxIterations` in `handleChatRequest`. -/
def maxIterations : Nat := 3

/-- The body of `handleChatRequest` after decoding the JSON request:
build the system prompt, ensure a single system message, then run the
loop.  Returns `(finalAnswer, workingMessages, completionCallCount)`. -/
def handleChat (ai : List ChatMessage → String) (oracle : HttpRequest → FetchResult)
    (messages : List ChatMessage) (userProfile : Option UserProfile) :
    String × List ChatMessage × Nat :=
  let systemPrompt := buildSystemPrompt userProfile
  let messages := ensureSystem systemPrompt messages
  let workingMessages := messages
  chatLoop ai oracle maxIterations workingMessages

/-- `buildStreamingResponse`: the single-chunk body
`JSON.stringify({ response: content })`. -/
def buildStreamingResponse (content : String) : String :=
  "\x7b\"response\":\"" ++ jsonEscape content ++ "\"\x7d"

/-! ### Decomposition of the profile block (for stating properties of
`buildSystemPrompt`; the builder itself above mirrors the source's
sequential `prompt += ...`). -/

/-- The header line that opens the profile block. -/
def studentProfileHeader : String := "\n\nStudent Profile:"

/-- The personalization instruction that closes the profile block. -/
def profileInstruction : String :=
  "\n\nUse this information to provide personalized transfer advice and call tools when relevant to get specific data."

/-- The community-college line contributed by the `cc` field ("" when
the field is absent or empty). -/
def ccLine : Option String → String
  | some c => if c ≠ "" then "\n- Current Community College: " ++ c else ""
  | none => ""

/-- The target-major line contributed by the `major` field. -/
def majorLine : Option String → String
  | some m => if m ≠ "" then "\n- Target Major: " ++ m else ""
  | none => ""

/-- The target-universities line contributed by the `schools` field. -/
def schoolsLine : Option (List String) → String
  | some l => if l.length > 0 then "\n- Target Universities: " ++ String.intercalate ", " l else ""
  | none => ""

/-- The five tool names `executeTool` dispatches on. -/
def knownToolNames : List String :=
  ["check_transfer_requirements", "find_internships", "find_mentorship_programs",
   "find_free_resources", "find_cs_articulations"]

/-! ## Helper lemmas -/

/-- `buildSystemPrompt` on a supplied profile decomposes into the fixed
prompt, the profile header, one optional line per set field, and the
personalization instruction. -/
theorem buildSystemPrompt_some (p : UserProfile) :
    buildSystemPrompt (some p) =
      basePrompt ++ (studentProfileHeader ++
        (ccLine p.cc ++ (majorLine p.major ++ (schoolsLine p.schools ++ profileInstruction)))) := by
  rcases p with ⟨cc, schools, major⟩
  cases cc <;> cases schools <;> cases major <;>
    simp only [buildSystemPrompt, studentProfileHeader, profileInstruction, ccLine, majorLine,
      schoolsLine] <;>
    (try split_ifs) <;>
    simp only [String.append_assoc, String.append_empty, String.empty_append]

/-! ## Claims -/

/-- Claim C1 (status: code_bug).  The claim says invoking the
dispatcher with the phantom tool name `find_cs_articulations` produces
no outbound call to its real endpoint and resolves to an "unknown
tool" result.  The code contradicts this (and the deny-list stated in
its own `TOOLS_DEFINITION` text): `executeTool` has a live branch for
`find_cs_articulations` that issues a GET to
`/api/cs-articulations` and returns the tool's payload.  This theorem
evaluates the dispatcher at a concrete failing input. -/
theorem c1_phantom_tool_is_dispatched :
    (executeTool "find_cs_articulations" [("cc", .str "De Anza"), ("uc", .str "UC Berkeley")]
        (fun _ => .success "\x7b\"ok\":true\x7d")).2 =
      [⟨"GET", "http://localhost:5000/api/cs-articulations?cc=De%20Anza&uc=UC%20Berkeley", none⟩] ∧
    (executeTool "find_cs_articulations" [("cc", .str "De Anza"), ("uc", .str "UC Berkeley")]
        (fun _ => .success "\x7b\"ok\":true\x7d")).1 =
      "[CS Articulations Tool by Angelo] \x7b\"ok\":true\x7d" ∧
    (executeTool "find_cs_articulations" [("cc", .str "De Anza"), ("uc", .str "UC Berkeley")]
        (fun _ => .success "\x7b\"ok\":true\x7d")).1 ≠
      "\x7b\"error\":\"Unknown tool: find_cs_articulations\"\x7d" := by
  refine ⟨by decide, by decide, by decide⟩

/-- Claim C2 counterexample.  The claim says a parameter value of `""`
remains text.  In the code, `Number("")` is `0` and `isNaN(0)` is
`false`, so `""` is coerced to the number `0`. -/
theorem c2_empty_string_becomes_zero :
    parseToolCalls "<TOOL_CALL>f(x=\"\")</TOOL_CALL>" =
      [⟨"f", [("x", .num (.rat ⟨0, 1⟩))]⟩] ∧
    Value.num (.rat ⟨0, 1⟩) ≠ .str "" := by
  refine ⟨by decide, by decide⟩

/-- Claim C2 (status: corrected).  Amended: `"5"` coerces to the number
`5` and `"Biology"` remains text, but `""` coerces to the number `0`;
in general a value is coerced to a number exactly when `Number(text)`
is not `NaN` (which holds for the empty string, whitespace, hex
literals, etc., not only for "fully numeric" text). -/
theorem c2_coercion_amended :
    parseToolCalls "<TOOL_CALL>f(x=\"5\")</TOOL_CALL>" =
      [⟨"f", [("x", .num (.rat ⟨5, 1⟩))]⟩] ∧
    parseToolCalls "<TOOL_CALL>f(x=\"Biology\")</TOOL_CALL>" =
      [⟨"f", [("x", .str "Biology")]⟩] ∧
    parseToolCalls "<TOOL_CALL>f(x=\"\")</TOOL_CALL>" =
      [⟨"f", [("x", .num (.rat ⟨0, 1⟩))]⟩] ∧
    ∀ v : String, (∃ n, coerceValue v = .num n) ↔ jsNumber v ≠ .nan := by
  refine ⟨by decide, by decide, by decide, ?_⟩
  intro v
  unfold coerceValue
  cases h : jsNumber v <;> simp

/-- Witness for C2: a fully numeric value is stored as a number. -/
theorem c2_coercion_amended_witness :
    ∃ n, coerceValue "12" = .num n :=
  (c2_coercion_amended.2.2.2 "12").mpr (by decide)

/-- Claim C3 counterexample.  The claim says the whole "Student
Profile" block is omitted when no field of the profile is set.  In the
code the guard is `if (userProfile)`, so a supplied profile with no
fields set still appends the header and the personalization
instruction. -/
theorem c3_empty_profile_still_gets_block :
    buildSystemPrompt (some ⟨none, none, none⟩) =
      buildSystemPrompt none ++ "\n\nStudent Profile:" ++
        "\n\nUse this information to provide personalized transfer advice and call tools when relevant to get specific data." ∧
    buildSystemPrompt (some ⟨none, none, none⟩) ≠ buildSystemPrompt none := by
  refine ⟨rfl, ?_⟩
  intro heq
  have h2 : buildSystemPrompt none ++ "\n\nStudent Profile:" ++
      "\n\nUse this information to provide personalized transfer advice and call tools when relevant to get specific data." =
      buildSystemPrompt none :=
    (rfl :
      buildSystemPrompt (some ⟨none, none, none⟩) =
        buildSystemPrompt none ++ "\n\nStudent Profile:" ++
          "\n\nUse this information to provide personalized transfer advice and call tools when relevant to get specific data.").symm.trans
      heq
  have h3 := congrArg String.length h2
  have h4 : ("\n\nStudent Profile:" : String).length = 18 := by decide
  simp only [String.length_append, h4] at h3
  omega

/-- Claim C3 (status: corrected).  Amended: the "Student Profile" block
(header and personalization instruction) is appended whenever a profile
object is supplied — even one with no fields set — and omitted only
when no profile is supplied; each absent (or empty) field omits only
its own line. -/
theorem c3_profile_block_amended :
    buildSystemPrompt none = basePrompt ∧
    (∀ p : UserProfile, ∃ fieldLines : String,
      buildSystemPrompt (some p) =
        basePrompt ++ (studentProfileHeader ++ (fieldLines ++ profileInstruction))) ∧
    buildSystemPrompt (some ⟨none, none, none⟩) =
      basePrompt ++ (studentProfileHeader ++ profileInstruction) ∧
    buildSystemPrompt (some ⟨some "De Anza", none, some "Biology"⟩) =
      basePrompt ++ (studentProfileHeader ++
        (("\n- Current Community College: " ++ "De Anza") ++
          (("\n- Target Major: " ++ "Biology") ++ profileInstruction))) := by
  refine ⟨rfl, fun p => ?_, ?_, ?_⟩
  · exact ⟨ccLine p.cc ++ (majorLine p.major ++ schoolsLine p.schools),
      by rw [buildSystemPrompt_some]; simp [String.append_assoc]⟩
  · rw [buildSystemPrompt_some]
    simp [ccLine, majorLine, schoolsLine]
  · rw [buildSystemPrompt_some]
    simp [ccLine, majorLine, schoolsLine, String.append_assoc]

/-- In the budget-exhaustion regime (every reply parses to at least one
directive) the loop makes one completion call per unit of budget plus
the final unconditional call, and returns the final call's reply
without parsing it. -/
theorem chatLoop_exhaust (ai : List ChatMessage → String) (oracle : HttpRequest → FetchResult)
    (h : ∀ ms, parseToolCalls (ai ms) ≠ []) :
    ∀ (fuel : Nat) (msgs : List ChatMessage),
      (chatLoop ai oracle fuel msgs).2.2 = fuel + 1 ∧
      (chatLoop ai oracle fuel msgs).1 = ai (chatLoop ai oracle fuel msgs).2.1 := by
  intro fuel
  induction fuel with
  | zero => exact fun msgs => ⟨rfl, rfl⟩
  | succ n ih =>
    intro msgs
    have hne : ¬ (parseToolCalls (ai msgs)).length = 0 := by
      simpa [List.length_eq_zero] using h msgs
    simp only [chatLoop]
    rw [if_neg hne]
    exact ⟨by rw [(ih _).1], (ih _).2⟩

/-- Every run of the loop makes at least one completion call. -/
theorem chatLoop_count_pos (ai : List ChatMessage → String) (oracle : HttpRequest → FetchResult) :
    ∀ (fuel : Nat) (msgs : List ChatMessage), 1 ≤ (chatLoop ai oracle fuel msgs).2.2 := by
  intro fuel msgs
  cases fuel with
  | zero => exact Nat.le_refl 1
  | succ n =>
    simp only [chatLoop]
    split
    · exact Nat.le_refl 1
    · exact Nat.le_add_left 1 _

/-- Claim C4 (status: confirmed).  If every reply up to the iteration
limit contains at least one well-formed directive, the loop performs
exactly `maxIterations = 3` directive-triggering completion calls plus
exactly one unconditional final call (4 total), and the final call's
reply is returned as the answer with no further directive parsing (so
even a final reply that itself contains directives is returned as
text). -/
theorem c4_budget_exhaustion (ai : List ChatMessage → String) (oracle : HttpRequest → FetchResult)
    (messages : List ChatMessage) (userProfile : Option UserProfile)
    (h : ∀ ms, parseToolCalls (ai ms) ≠ []) :
    maxIterations = 3 ∧
    (handleChat ai oracle messages userProfile).2.2 = maxIterations + 1 ∧
    (handleChat ai oracle messages userProfile).1 =
      ai (handleChat ai oracle messages userProfile).2.1 := by
  exact ⟨rfl, (chatLoop_exhaust ai oracle h maxIterations _).1,
    (chatLoop_exhaust ai oracle h maxIterations _).2⟩

/-- Witness for C4: a model that always requests a tool makes exactly
`maxIterations + 1 = 4` completion calls. -/
theorem c4_budget_exhaustion_witness :
    (handleChat (fun _ => "<TOOL_CALL>find_mentorship_programs()</TOOL_CALL>")
        (fun _ => .success "[]") [⟨"user", "hi"⟩] none).2.2 = maxIterations + 1 :=
  (c4_budget_exhaustion (fun _ => "<TOOL_CALL>find_mentorship_programs()</TOOL_CALL>")
    (fun _ => .success "[]") [⟨"user", "hi"⟩] none
    (fun _ =>
      (by decide : parseToolCalls "<TOOL_CALL>find_mentorship_programs()</TOOL_CALL>" ≠ []))).2.1

/-- Claim C5 (status: confirmed).  When the first reply contains zero
well-formed directives, the loop terminates after exactly one
completion call and returns that reply verbatim (the reply is also
appended to the working messages as the assistant turn). -/
theorem c5_no_directives (ai : List ChatMessage → String) (oracle : HttpRequest → FetchResult)
    (messages : List ChatMessage) (userProfile : Option UserProfile)
    (h : parseToolCalls (ai (ensureSystem (buildSystemPrompt userProfile) messages)) = []) :
    handleChat ai oracle messages userProfile =
      (ai (ensureSystem (buildSystemPrompt userProfile) messages),
       ensureSystem (buildSystemPrompt userProfile) messages ++
         [⟨"assistant", ai (ensureSystem (buildSystemPrompt userProfile) messages)⟩],
       1) := by
  show chatLoop ai oracle maxIterations (ensureSystem (buildSystemPrompt userProfile) messages) = _
  simp only [maxIterations, chatLoop]
  rw [if_pos (by simp [h])]

/-- Witness for C5: a directive-free reply is returned verbatim after
one completion call. -/
theorem c5_no_directives_witness :
    handleChat (fun _ => "Hello!") (fun _ => .success "[]") [⟨"user", "hi"⟩] none =
      ("Hello!",
       ensureSystem (buildSystemPrompt none) [⟨"user", "hi"⟩] ++ [⟨"assistant", "Hello!"⟩],
       1) :=
  c5_no_directives (fun _ => "Hello!") (fun _ => .success "[]") [⟨"user", "hi"⟩] none (by decide)

/-- Claim C6 (status: confirmed).  System-message insertion is
idempotent: a history that already contains a system-role message is
left unchanged; a history with none gets exactly one system message,
inserted at position 0. -/
theorem c6_system_message_idempotent (sp : String) (msgs : List ChatMessage) :
    ((msgs.any fun m => m.role == "system") = true → ensureSystem sp msgs = msgs) ∧
    ((msgs.any fun m => m.role == "system") = false →
      ensureSystem sp msgs = ⟨"system", sp⟩ :: msgs ∧
      ((ensureSystem sp msgs).countP fun m => m.role == "system") = 1) := by
  constructor
  · intro h
    simp [ensureSystem, h]
  · intro h
    have he : ensureSystem sp msgs = ⟨"system", sp⟩ :: msgs := by
      simp [ensureSystem, h]
    refine ⟨he, ?_⟩
    rw [he, List.countP_cons_of_pos _ _ (by rfl)]
    have h0 : msgs.countP (fun m => m.role == "system") = 0 := by
      rw [List.countP_eq_zero]
      exact List.any_eq_false.mp h
    rw [h0]

/-- Witness for C6: with a system message present nothing is inserted;
with none present exactly one system message appears at the head. -/
theorem c6_system_message_idempotent_witness :
    ensureSystem "sp" [⟨"system", "x"⟩, ⟨"user", "hi"⟩] = [⟨"system", "x"⟩, ⟨"user", "hi"⟩] ∧
    ensureSystem "sp" [⟨"user", "hi"⟩] = [⟨"system", "sp"⟩, ⟨"user", "hi"⟩] ∧
    (ensureSystem "sp" [⟨"user", "hi"⟩]).countP (fun m => m.role == "system") = 1 :=
  ⟨(c6_system_message_idempotent "sp" [⟨"system", "x"⟩, ⟨"user", "hi"⟩]).1 (by decide),
   ((c6_system_message_idempotent "sp" [⟨"user", "hi"⟩]).2 (by decide)).1,
   ((c6_system_message_idempotent "sp" [⟨"user", "hi"⟩]).2 (by decide)).2⟩

/-- Claim C7 (status: confirmed).  Within one request the working
message list is append-only: from any point of the loop the final
working messages extend the messages at that point — every prior
message is preserved unchanged, in order, at its original position. -/
theorem c7_working_messages_append_only (ai : List ChatMessage → String)
    (oracle : HttpRequest → FetchResult) (fuel : Nat) (msgs : List ChatMessage) :
    ∃ tail, (chatLoop ai oracle fuel msgs).2.1 = msgs ++ tail := by
  induction fuel generalizing msgs with
  | zero => exact ⟨[], (List.append_nil msgs).symm⟩
  | succ n ih =>
    simp only [chatLoop]
    split
    · exact ⟨[⟨"assistant", ai msgs⟩], rfl⟩
    · generalize (List.foldl (fun acc tc => acc ++ (executeTool tc.tool tc.params oracle).1 ++ "\n")
        "Tool Execution Results:\n" (parseToolCalls (ai msgs))) = tr
      obtain ⟨t, ht⟩ := ih (msgs ++ [⟨"assistant", ai msgs⟩] ++ [⟨"user", tr⟩])
      exact ⟨[⟨"assistant", ai msgs⟩] ++ ([⟨"user", tr⟩] ++ t),
        by rw [ht]; simp [List.append_assoc]⟩

/-- Claim C8 (status: confirmed).  For every dispatch of a known tool,
a network or decoding failure is caught inside the dispatcher and
converted into the text `[<tool display name>] Error: <description>`
rather than propagating, and the loop still makes its next completion
call (at least two completion calls happen whenever the first reply
requested tools, whatever the oracle answers). -/
theorem c8_tool_failure_contained (toolName : String) (params : List (String × Value))
    (err : String) (h : toolName ∈ knownToolNames) :
    (executeTool toolName params (fun _ => .failure err)).1 =
      "[" ++ toolDisplayName toolName ++ "] Error: " ++ err ∧
    ∀ (ai : List ChatMessage → String) (msgs : List ChatMessage),
      parseToolCalls (ai msgs) ≠ [] →
      2 ≤ (chatLoop ai (fun _ => .failure err) maxIterations msgs).2.2 := by
  constructor
  · simp only [knownToolNames, List.mem_cons, List.not_mem_nil, or_false] at h
    rcases h with h | h | h | h | h <;> subst h <;> rfl
  · intro ai msgs hne
    have hlen : ¬ (parseToolCalls (ai msgs)).length = 0 := by
      simpa [List.length_eq_zero] using hne
    show 2 ≤ (chatLoop ai (fun _ => .failure err) 3 msgs).2.2
    simp only [chatLoop]
    rw [if_neg hlen]
    exact Nat.succ_le_succ (chatLoop_count_pos _ _ 2 _)

/-- Witness for C8: a failing fetch for `find_internships` yields the
attributed error line, and a tool-requesting first reply still gets a
second completion call. -/
theorem c8_tool_failure_contained_witness :
    (executeTool "find_internships" [("major", .str "Biology")]
        (fun _ => .failure "TypeError: fetch failed")).1 =
      "[" ++ toolDisplayName "find_internships" ++ "] Error: TypeError: fetch failed" ∧
    2 ≤ (chatLoop (fun _ => "<TOOL_CALL>find_internships(major=\"Biology\")</TOOL_CALL>")
        (fun _ => .failure "TypeError: fetch failed") maxIterations [⟨"user", "hi"⟩]).2.2 :=
  ⟨(c8_tool_failure_contained "find_internships" [("major", .str "Biology")]
      "TypeError: fetch failed" (by decide)).1,
   (c8_tool_failure_contained "find_internships" [("major", .str "Biology")]
      "TypeError: fetch failed" (by decide)).2
     (fun _ => "<TOOL_CALL>find_internships(major=\"Biology\")</TOOL_CALL>")
     [⟨"user", "hi"⟩] (by decide)⟩

/-- Characters accumulated by `takeParamsRegion` are never line
terminators (the accumulator invariant of the lazy-dot scan). -/
theorem takeParamsRegion_no_line_terminator :
    ∀ (fuel : Nat) (acc s : List Char) (ps rest : List Char),
      takeParamsRegion fuel acc s = some (ps, rest) →
      (∀ c ∈ acc, isJsLineTerminator c = false) →
      ∀ c ∈ ps, isJsLineTerminator c = false := by
  intro fuel
  induction fuel with
  | zero => intro acc s ps rest h; simp [takeParamsRegion] at h
  | succ n ih =>
    intro acc s ps rest h hacc
    simp only [takeParamsRegion] at h
    split at h
    · simp only [Option.some.injEq, Prod.mk.injEq] at h
      obtain ⟨h1, h2⟩ := h
      subst h1
      intro c hc
      exact hacc c (List.mem_reverse.mp hc)
    · split at h
      · simp at h
      · split at h
        · simp at h
        · rename_i c cs heq hlt
          exact ih (c :: acc) cs ps rest h
            (fun d hd => by
              rcases List.mem_cons.mp hd with hd | hd
              · subst hd; simpa using hlt
              · exact hacc d hd)

/-- A directive matched at one position has no line terminator in its
raw parameter text. -/
theorem matchDirective_no_line_terminator (s : List Char) (d : String × String)
    (rest : List Char) (h : matchDirective s = some (d, rest)) :
    ∀ c ∈ d.2.data, isJsLineTerminator c = false := by
  simp only [matchDirective] at h
  split at h
  · simp at h
  · split at h
    · simp at h
    · split at h
      · rename_i r3 heq
        split at h
        · rename_i ps1 rest1 htake
          simp only [Option.some.injEq, Prod.mk.injEq] at h
          obtain ⟨hd1, hrest⟩ := h
          subst hd1
          intro ch hch
          exact takeParamsRegion_no_line_terminator (r3.length + 1) [] r3 ps1 rest1
            htake (by simp) ch hch
        · simp at h
      · simp at h

/-- Every directive recognized by the scan has a line-terminator-free
raw parameter text. -/
theorem scanDirectives_no_line_terminator :
    ∀ (fuel : Nat) (s : List Char) (d : String × String),
      d ∈ scanDirectives fuel s →
      ∀ c ∈ d.2.data, isJsLineTerminator c = false := by
  intro fuel
  induction fuel with
  | zero => intro s d hd; simp [scanDirectives] at hd
  | succ n ih =>
    intro s d hd
    simp only [scanDirectives] at hd
    split at hd
    · simp at hd
    · rename_i c cs
      split at hd
      · rename_i d2 r2 hm
        rcases List.mem_cons.mp hd with hd1 | hd1
        · subst hd1
          exact matchDirective_no_line_terminator (c :: cs) _ r2 hm
        · exact ih r2 d hd1
      · exact ih cs d hd

/-- Claim C9 counterexample.  The claim says the parser never
recognizes a directive whose parameter-list text contains a `)`
character ("matching stops at the first `)`").  In fact the lazy match
stops at the first occurrence of the full closing sequence
`)</TOOL_CALL>`, so a `)` that is not directly followed by
`</TOOL_CALL>` sits inside a fully recognized (untruncated) parameter
list. -/
theorem c9_paren_inside_params_recognized :
    parseToolCalls "<TOOL_CALL>f(a=\")\" b=\"y\")</TOOL_CALL>" =
      [⟨"f", [("a", .str ")"), ("b", .str "y")]⟩] ∧
    parseToolCallsRaw "<TOOL_CALL>f(a=\")\" b=\"y\")</TOOL_CALL>" =
      [("f", "a=\")\" b=\"y\"")] := by
  refine ⟨by decide, by decide⟩

/-- Claim C9 (status: corrected).  Amended: the parser never recognizes
a directive whose parameter-list text contains a line terminator before
the closing `</TOOL_CALL>` marker (matching does not cross line
boundaries — such text yields no directive from that position), and the
parameter text ends at the first occurrence of `)</TOOL_CALL>`; a lone
`)` may appear inside the recognized parameter text. -/
theorem c9_no_newline_in_params_amended :
    (∀ (s : String) (d : String × String), d ∈ parseToolCallsRaw s →
      ∀ c ∈ d.2.data, isJsLineTerminator c = false) ∧
    parseToolCalls "<TOOL_CALL>f(a=\"x\"\nb=\"y\")</TOOL_CALL>" = [] := by
  refine ⟨?_, by decide⟩
  intro s d hd
  exact scanDirectives_no_line_terminator s.length s.data d hd

/-- Witness for C9: the parameter text of a recognized directive
contains no line terminator (checked at a concrete directive and
character). -/
theorem c9_no_newline_in_params_amended_witness :
    isJsLineTerminator 'v' = false :=
  c9_no_newline_in_params_amended.1 "<TOOL_CALL>g(k=\"v\")</TOOL_CALL>" ("g", "k=\"v\"")
    (by decide) 'v' (by decide)

/-- Claim C10 (status: confirmed).  For `find_internships`, a `limit`
parameter that is absent — or that coerced to the number `0` (which is
falsy, so `params.limit || 5` takes the default) — is replaced by the
default `5` in the outgoing query string, so a caller cannot request a
limit of zero results. -/
theorem c10_limit_defaults_to_five (params : List (String × Value))
    (oracle : HttpRequest → FetchResult)
    (h : jsGet params "limit" = none ∨ jsGet params "limit" = some (.num (.rat ⟨0, 1⟩))) :
    (executeTool "find_internships" params oracle).2 =
      [⟨"GET", API_BASE_URL ++ "/api/stem-internships?major=" ++
        encodeURIComponent (optValueToJsString (jsGet params "major")) ++ "&limit=5", none⟩] := by
  have h5 : jsOrFive (jsGet params "limit") = "5" := by
    rcases h with h | h <;> rw [h] <;> rfl
  show (executeTool "find_internships" params oracle).2 = _
  simp only [executeTool, fetchAndRender]
  rw [if_neg (by decide), if_pos (by decide), h5,
    String.append_assoc
      (API_BASE_URL ++ "/api/stem-internships?major=" ++
        encodeURIComponent (optValueToJsString (jsGet params "major")))
      "&limit=" "5",
    show ("&limit=" : String) ++ "5" = "&limit=5" from by decide]

/-- Witness for C10: with no `limit` parameter the outgoing URL carries
`limit=5`. -/
theorem c10_limit_defaults_to_five_witness :
    (executeTool "find_internships" [("major", .str "Biology")]
        (fun _ => .success "[]")).2 =
      [⟨"GET", API_BASE_URL ++ "/api/stem-internships?major=" ++
        encodeURIComponent (optValueToJsString (jsGet [("major", Value.str "Biology")] "major")) ++
        "&limit=5", none⟩] :=
  c10_limit_defaults_to_five [("major", .str "Biology")] (fun _ => .success "[]")
    (Or.inl (by decide))

end LlmChat
